import Mathlib

/-!
Shallow embedding of the data-reshaping pipeline of
`src/duolingo_user_language_analysis.py`, together with the derived
aggregates and the two Dash callbacks, and proofs of the specified
properties.

The Python script is straight-line pandas code; every definition below
names the script fragment (by line number) it embeds.
-/

namespace Duolingo

/-- Python `str.strip()` on a character list: drop leading and trailing
whitespace (lines 19 and 21 of the script). -/
def stripChars (l : List Char) : List Char :=
  ((l.dropWhile Char.isWhitespace).reverse.dropWhile Char.isWhitespace).reverse

/-- Python `str.strip()` on a string. -/
def strip (s : String) : String := ⟨stripChars s.data⟩

/-- Python `str.startswith(p)`: the first `len p` characters equal `p`. -/
def strStarts (s p : String) : Bool := decide (s.data.take p.data.length = p.data)

/-- Embedding of `re.search(r'(pop[12])', s)` (line 36): the leftmost
occurrence of the substring `pop1` or `pop2`, or `none` when there is no
match (pandas `.str.extract` leaves NaN). -/
def findPopRank : List Char → Option String
  | 'p' :: 'o' :: 'p' :: '1' :: _ => some "pop1"
  | 'p' :: 'o' :: 'p' :: '2' :: _ => some "pop2"
  | _ :: rest => findPopRank rest
  | [] => none

/-- Numeric value of a digit character. -/
def digitVal (c : Char) : Nat := c.toNat - 48

/-- When the list begins with four digit characters, the number they spell. -/
def digits4At : List Char → Option Nat
  | a :: b :: c :: d :: _ =>
    if a.isDigit && b.isDigit && c.isDigit && d.isDigit then
      some (digitVal a * 1000 + digitVal b * 100 + digitVal c * 10 + digitVal d)
    else none
  | _ => none

/-- Embedding of the digit-run search of line 37 (4-digit regex group then
`pd.to_numeric`): the leftmost four consecutive digit characters, as a
number; `none` when there is no match (the row is then dropped by line 38). -/
def findYear4 : List Char → Option Nat
  | [] => none
  | c :: rest =>
    match digits4At (c :: rest) with
    | some n => some n
    | none => findYear4 rest

/-- One row of the loaded spreadsheet: the country label (first column,
renamed `country` on line 20) and the remaining cells, aligned with
`RawTable.cols`; `none` is a missing (NaN) cell. -/
structure RawRow where
  country : String
  cells : List (Option String)
deriving Repr, DecidableEq

/-- The raw table produced by `pd.read_excel` (line 16): the headers of the
columns after the country column, and the rows. -/
structure RawTable where
  cols : List String
  rows : List RawRow
deriving Repr, DecidableEq

/-- Line 19: all column headers are stripped of surrounding whitespace. -/
def cleanCols (t : RawTable) : List String := t.cols.map strip

/-- Line 24: indices of the columns whose (cleaned) header begins with
`pop` — the `language_cols` selection. -/
def popColIdxs (t : RawTable) : List Nat :=
  (List.range (cleanCols t).length).filter
    fun i => strStarts ((cleanCols t).getD i "") "pop"

/-- Lines 28–33: `melt` to long format and `dropna(subset=['language'])`.
One triple `(country, pop_year, language)` per (pop column, row) pair whose
cell is present; the country value is stripped (line 21); pandas `melt`
stacks column by column. -/
def melt (t : RawTable) : List (String × String × String) :=
  (popColIdxs t).flatMap fun i =>
    t.rows.filterMap fun row =>
      (row.cells.getD i none).map fun v =>
        (strip row.country, (cleanCols t).getD i "", v)

/-- One row of `long_df` after lines 36–39: extracted `rank` (possibly NaN)
and `year` (rows without a year match were dropped). -/
structure LongRecord where
  country : String
  pop_year : String
  language : String
  rank : Option String
  year : Nat
deriving Repr, DecidableEq

/-- Lines 28–39: the full normalization producing `long_df`. -/
def normalize (t : RawTable) : List LongRecord :=
  (melt t).filterMap fun m =>
    (findYear4 m.2.1.data).map fun y =>
      { country := m.1, pop_year := m.2.1, language := m.2.2,
        rank := findPopRank m.2.1.data, year := y }

/-- pandas `Series.nunique`: the number of distinct values. -/
def nunique (l : List String) : Nat := l.dedup.length

/-- The distinct languages appearing in a record list (`groupby('language')`
group keys). -/
def languagesOf (rs : List LongRecord) : List String :=
  (rs.map (·.language)).dedup

/-- `groupby('language')['country'].nunique()` for one language: the number
of distinct countries among the records of that language (lines 44–46). -/
def countryCoverage (rs : List LongRecord) (lang : String) : Nat :=
  nunique ((rs.filter fun r => r.language == lang).map (·.country))

/-- Lines 44–50: languages sorted by descending distinct-country coverage,
truncated to `n` (the script fixes `n = 10` via `.head(10)`). -/
def top_languages (rs : List LongRecord) (n : Nat) : List String :=
  (List.insertionSort
    (fun a b => countryCoverage rs b ≤ countryCoverage rs a)
    (languagesOf rs)).take n

/-- One row of `line_data` (lines 56–57). -/
structure TrendPoint where
  year : Nat
  language : String
  num_countries : Nat
deriving Repr, DecidableEq

/-- One row of `bar_data` (lines 62–63); `rank` is a plain string because
`groupby` drops rows whose rank is NaN. -/
structure RankedCount where
  year : Nat
  language : String
  rank : String
  num_countries : Nat
deriving Repr, DecidableEq

/-- Line 51: `filtered_df`, the records of the top languages. -/
def filteredRecords (rs : List LongRecord) (top : List String) : List LongRecord :=
  rs.filter fun r => decide (r.language ∈ top)

/-- Lines 51 and 56–57: `line_data`, distinct-country counts grouped by
`(year, language)` over the top-language records. -/
def trend_series (rs : List LongRecord) (top : List String) : List TrendPoint :=
  let f := filteredRecords rs top
  ((f.map fun r => (r.year, r.language)).dedup).map fun k =>
    { year := k.1, language := k.2,
      num_countries :=
        nunique ((f.filter fun r => r.year == k.1 && r.language == k.2).map (·.country)) }

/-- Lines 51 and 62–63: `bar_data`, distinct-country counts grouped by
`(year, language, rank)` over the top-language records; `groupby` drops
the rows whose `rank` is NaN. -/
def ranked_series (rs : List LongRecord) (top : List String) : List RankedCount :=
  let f := filteredRecords rs top
  ((f.filterMap fun r => r.rank.map fun rk => (r.year, r.language, rk)).dedup).map fun k =>
    { year := k.1, language := k.2.1, rank := k.2.2,
      num_countries :=
        nunique ((f.filter fun r =>
          r.year == k.1 && r.language == k.2.1 && r.rank == some k.2.2).map (·.country)) }

/-- Line 177: `bar_data[bar_data['year'] == selected_year]`. -/
def slice_by_year (bars : List RankedCount) (y : Nat) : List RankedCount :=
  bars.filter fun b => b.year == y

/-- Line 178: `rank_map = {'pop1': 'Most Popular', 'pop2': 'Second Most Popular'}`;
`Series.map` yields NaN outside the dict. -/
def rank_map (r : String) : Option String :=
  if r = "pop1" then some "Most Popular"
  else if r = "pop2" then some "Second Most Popular"
  else none

/-- The figure returned by the stacked-bar callback: either the explicit
no-data placeholder (lines 181–187) or the bar chart over the year slice
with the pretty rank labels (lines 189–206). -/
inductive Figure where
  | noData : Nat → Figure
  | chart : List (RankedCount × Option String) → Nat → Figure
deriving Repr, DecidableEq

/-- Lines 175–206: the `update_bar` callback body as a function of the
aggregate table and the selected year. -/
def update_bar (bars : List RankedCount) (y : Nat) : Figure :=
  let year_df := slice_by_year bars y
  let pretty := year_df.map fun b => (b, rank_map b.rank)
  if year_df.isEmpty then Figure.noData y
  else Figure.chart pretty y

/-- Python `s[-4:]`: the last four characters (the whole string when it is
shorter). -/
def lastN (s : String) (n : Nat) : String := ⟨s.data.drop (s.data.length - n)⟩

/-- Lines 69–78: `pretty_col_map` for one column header. -/
def pretty_col (col : String) : String :=
  if strStarts col "pop1" then "Most Popular " ++ lastN col 4
  else if strStarts col "pop2" then "Second Most Popular " ++ lastN col 4
  else col

/-- Lines 215–220: the `update_table` callback; `not selected_countries`
is true for both the absent value and the empty list. -/
def update_table (tbl : List RawRow) (sel : Option (List String)) : List RawRow :=
  match sel with
  | none => tbl
  | some [] => tbl
  | some cs => tbl.filter fun r => decide (r.country ∈ cs)

/-- The `dcc.Slider` configuration (lines 109–117). -/
structure Slider where
  min : Nat
  max : Nat
  step : Nat
  value : Nat
deriving Repr, DecidableEq

/-- Lines 111–114: the year slider built from `bar_data`. -/
def year_slider (bars : List RankedCount) : Slider :=
  { min := ((bars.map (·.year)).min?).getD 0,
    max := ((bars.map (·.year)).max?).getD 0,
    step := 1,
    value := ((bars.map (·.year)).min?).getD 0 }

/-- The derived tables computed once at module load (lines 28–79) and held
for the lifetime of the server. -/
structure DashState where
  long_df : List LongRecord
  top_langs : List String
  line_data : List TrendPoint
  bar_data : List RankedCount
  table_df : List RawRow
deriving Repr, DecidableEq

/-- A UI interaction: moving the year slider or changing the country
selection. -/
inductive Event where
  | bar : Nat → Event
  | table : Option (List String) → Event

/-- The `update_bar` callback as a state transformer: it reads `bar_data`
from the module state and builds a fresh figure; the only assignment in its
body (line 179) targets a `.copy()` of the slice (line 177), so the module
state it returns is the one it received. -/
def update_bar_cb (s : DashState) (y : Nat) : DashState × Figure :=
  (s, update_bar s.bar_data y)

/-- The `update_table` callback as a state transformer (lines 215–220): it
returns a filtered view of `table_df` and assigns nothing. -/
def update_table_cb (s : DashState) (sel : Option (List String)) : DashState × List RawRow :=
  (s, update_table s.table_df sel)

/-- The module state after one UI interaction. -/
def step (s : DashState) (e : Event) : DashState :=
  match e with
  | .bar y => (update_bar_cb s y).1
  | .table sel => (update_table_cb s sel).1

/-! Concrete fixture: the worked example of spec §8. -/

/-- The raw table of the spec §8 example. -/
def exTable : RawTable :=
  { cols := ["pop12021", "pop22021"],
    rows := [⟨"France", [some "English", some "Spanish"]⟩,
             ⟨"Spain", [some "English", none]⟩] }

/-- Its normalized records. -/
def exRecords : List LongRecord := normalize exTable

/-- Its top-language list, with the script's `n = 10`. -/
def exTop : List String := top_languages exRecords 10

/-- Its ranked bar series. -/
def exBars : List RankedCount := ranked_series exRecords exTop

/-! Helper lemmas about membership in the pipeline stages. -/

/-- Unfolding membership in `melt`: every long triple comes from a present
cell of some row under some selected pop column, with the country stripped. -/
theorem of_mem_melt {t : RawTable} {m : String × String × String}
    (h : m ∈ melt t) :
    ∃ row ∈ t.rows, ∃ i ∈ popColIdxs t,
      row.cells.getD i none = some m.2.2
      ∧ m.1 = strip row.country
      ∧ m.2.1 = (cleanCols t).getD i "" := by
  simp only [melt, List.mem_flatMap, List.mem_filterMap] at h
  obtain ⟨i, hi, row, hrow, hcell⟩ := h
  rw [Option.map_eq_some'] at hcell
  obtain ⟨v, hv, hm⟩ := hcell
  refine ⟨row, hrow, i, hi, ?_, ?_, ?_⟩
  · rw [hv]; rw [← hm]
  · rw [← hm]
  · rw [← hm]

/-- Unfolding membership in `normalize`: every long record's fields are the
extractions of lines 36–39 applied to some melt triple. -/
theorem of_mem_normalize {t : RawTable} {r : LongRecord}
    (h : r ∈ normalize t) :
    ∃ m ∈ melt t,
      r.country = m.1 ∧ r.pop_year = m.2.1 ∧ r.language = m.2.2
      ∧ r.rank = findPopRank m.2.1.data
      ∧ findYear4 m.2.1.data = some r.year := by
  simp only [normalize, List.mem_filterMap] at h
  obtain ⟨m, hm, hf⟩ := h
  rw [Option.map_eq_some'] at hf
  obtain ⟨y, hy, hr⟩ := hf
  exact ⟨m, hm, by rw [← hr], by rw [← hr], by rw [← hr], by rw [← hr],
    by rw [← hr]; exact hy⟩

/-- Records surviving the top-language filter have their language in the
top list (line 51). -/
theorem mem_filteredRecords {rs : List LongRecord} {top : List String}
    {r : LongRecord} (h : r ∈ filteredRecords rs top) : r.language ∈ top := by
  rw [filteredRecords, List.mem_filter] at h
  exact of_decide_eq_true h.2

/-! C1. -/

/-- C1: the claim says every record produced from the column `pop12021`
has year 2021, the column's 4-digit year. The code's digit-run search
(line 37) instead matches the four consecutive digits `1202` — the rank
digit followed by the first three year digits — so normalization emits
year 1202. This contradicts the script's own header remapping (line 72),
which takes the last four characters `2021` of the same column name. -/
theorem year_extraction_bug :
    normalize { cols := ["pop12021"], rows := [⟨"France", [some "English"]⟩] } =
      [{ country := "France", pop_year := "pop12021", language := "English",
         rank := some "pop1", year := 1202 }]
    ∧ findYear4 "pop12021".data = some 1202
    ∧ lastN "pop12021" 4 = "2021"
    ∧ (1202 : Nat) ≠ 2021 := by
  refine ⟨by decide, by decide, by decide, by decide⟩

/-! C2. -/

/-- C2 counterexample: the column `popular2021` starts with `pop`, so it is
selected (line 24), its digit run `2021` passes the year filter, but it
contains neither `pop1` nor `pop2`, so the `rank` extraction (line 36)
leaves a missing value — and the row is not dropped. With an empty-string
cell the emitted record also has an empty `language`. The claimed output
invariant (rank always `pop1` or `pop2`, language non-empty) fails. -/
theorem normalize_invariant_counterexample :
    normalize { cols := ["popular2021"], rows := [⟨"X", [some ""]⟩] } =
      [{ country := "X", pop_year := "popular2021", language := "",
         rank := none, year := 2021 }]
    ∧ (normalize { cols := ["popular2021"], rows := [⟨"X", [some ""]⟩] }).length = 1
    ∧ ¬ ((none : Option String) = some "pop1" ∨ (none : Option String) = some "pop2")
    ∧ ("" : String).data.length = 0 := by
  refine ⟨by decide, by decide, by decide, by decide⟩

/-- C2 amended: every emitted record's `language` is the verbatim value of
a present source cell (missing cells are dropped), its `rank` is the
leftmost `pop1`/`pop2` occurrence in the source column name when one
exists and missing otherwise (such records are kept), and its `year` is
the leftmost run of four consecutive digits of the column name (records
with no such run are dropped). -/
theorem normalize_field_invariants (t : RawTable) (r : LongRecord)
    (h : r ∈ normalize t) :
    findYear4 r.pop_year.data = some r.year
    ∧ r.rank = findPopRank r.pop_year.data
    ∧ ∃ row ∈ t.rows, ∃ i ∈ popColIdxs t,
        row.cells.getD i none = some r.language
        ∧ r.country = strip row.country := by
  obtain ⟨m, hm, hc, hp, hl, hrk, hy⟩ := of_mem_normalize h
  obtain ⟨row, hrow, i, hi, hcell, hcountry, _⟩ := of_mem_melt hm
  refine ⟨by rw [hp]; exact hy, by rw [hp]; exact hrk, row, hrow, i, hi, ?_, ?_⟩
  · rw [hl]; exact hcell
  · rw [hc]; exact hcountry

/-- C2 witness: the amended invariants evaluated on the §8 example. -/
theorem normalize_field_invariants_witness :
    ((⟨"France", "pop12021", "English", some "pop1", 1202⟩ : LongRecord) ∈ exRecords)
    ∧ (findYear4 ("pop12021" : String).data = some 1202
       ∧ (some "pop1" : Option String) = findPopRank ("pop12021" : String).data
       ∧ ∃ row ∈ exTable.rows, ∃ i ∈ popColIdxs exTable,
           row.cells.getD i none = some "English"
           ∧ ("France" : String) = strip row.country) :=
  ⟨by decide,
   normalize_field_invariants exTable
     ⟨"France", "pop12021", "English", some "pop1", 1202⟩ (by decide)⟩

/-! C5. -/

/-- C5: the year slice (line 177) is the subsequence of the ranked series
with the selected year, in order: it is a sublist, contains exactly the
rows of that year, is empty — rather than an error — when no row matches,
and in that case the callback returns the explicit no-data placeholder
figure (lines 181–187). -/
theorem slice_by_year_spec (bars : List RankedCount) (y : Nat) :
    List.Sublist (slice_by_year bars y) bars
    ∧ (∀ b ∈ slice_by_year bars y, b.year = y)
    ∧ (∀ b ∈ bars, b.year = y → b ∈ slice_by_year bars y)
    ∧ ((∀ b ∈ bars, b.year ≠ y) →
        slice_by_year bars y = [] ∧ update_bar bars y = Figure.noData y) := by
  refine ⟨List.filter_sublist bars, ?_, ?_, ?_⟩
  · intro b hb
    rw [slice_by_year, List.mem_filter] at hb
    exact beq_iff_eq.mp hb.2
  · intro b hb hy
    rw [slice_by_year, List.mem_filter]
    exact ⟨hb, by rw [hy]; exact beq_self_eq_true y⟩
  · intro hnone
    have hempty : slice_by_year bars y = [] := by
      rw [slice_by_year, List.filter_eq_nil_iff]
      intro b hb
      simp only [beq_iff_eq]
      exact hnone b hb
    refine ⟨hempty, ?_⟩
    rw [update_bar]
    simp only [hempty, List.isEmpty_nil, List.map_nil, if_pos]

/-- C5 witness: the §8 example has no 2022 rows; the slice is empty and
the callback renders the placeholder. -/
theorem slice_by_year_spec_witness :
    (∀ b ∈ exBars, b.year ≠ 2022)
    ∧ (slice_by_year exBars 2022 = [] ∧ update_bar exBars 2022 = Figure.noData 2022) :=
  ⟨by decide, (slice_by_year_spec exBars 2022).2.2.2 (by decide)⟩

/-! C10. -/

/-- C10: the table callback (lines 215–220) returns the whole wide table
when the selection is absent or empty, and otherwise exactly the rows
whose country label belongs to the selection, in the table's original
order. -/
theorem update_table_spec (tbl : List RawRow) (sel : Option (List String)) :
    ((sel = none ∨ sel = some []) → update_table tbl sel = tbl)
    ∧ (∀ cs, sel = some cs → cs ≠ [] →
        List.Sublist (update_table tbl sel) tbl
        ∧ (∀ r ∈ update_table tbl sel, r.country ∈ cs)
        ∧ (∀ r ∈ tbl, r.country ∈ cs → r ∈ update_table tbl sel)) := by
  constructor
  · rintro (rfl | rfl) <;> rfl
  · rintro cs rfl hne
    have hcases : update_table tbl (some cs) =
        tbl.filter fun r => decide (r.country ∈ cs) := by
      cases cs with
      | nil => exact absurd rfl hne
      | cons c cs' => rfl
    rw [hcases]
    refine ⟨List.filter_sublist tbl, ?_, ?_⟩
    · intro r hr
      rw [List.mem_filter] at hr
      exact of_decide_eq_true hr.2
    · intro r hr hmem
      rw [List.mem_filter]
      exact ⟨hr, decide_eq_true hmem⟩

/-- C10 witness: the callback evaluated on the §8 example's wide table with
an empty and with a one-country selection. -/
theorem update_table_spec_witness :
    (update_table exTable.rows (some []) = exTable.rows)
    ∧ List.Sublist (update_table exTable.rows (some ["Spain"])) exTable.rows
    ∧ (∀ r ∈ update_table exTable.rows (some ["Spain"]), r.country ∈ ["Spain"])
    ∧ (∀ r ∈ exTable.rows, r.country ∈ ["Spain"] →
        r ∈ update_table exTable.rows (some ["Spain"])) :=
  ⟨(update_table_spec exTable.rows (some [])).1 (Or.inr rfl),
   (update_table_spec exTable.rows (some ["Spain"])).2 ["Spain"] rfl (by decide)⟩

/-! C3. -/

/-- C3: `top_languages` (lines 44–50) returns exactly
`min n (number of distinct languages)` entries, in non-increasing order of
distinct-country coverage, and every entry is one of the record set's
languages. -/
theorem top_languages_spec (rs : List LongRecord) (n : Nat) :
    (top_languages rs n).length = min n (languagesOf rs).length
    ∧ List.Pairwise
        (fun a b => countryCoverage rs b ≤ countryCoverage rs a)
        (top_languages rs n)
    ∧ ∀ l ∈ top_languages rs n, l ∈ languagesOf rs := by
  haveI ht : IsTotal String fun a b => countryCoverage rs b ≤ countryCoverage rs a :=
    ⟨fun a b => Nat.le_total _ _⟩
  haveI htr : IsTrans String fun a b => countryCoverage rs b ≤ countryCoverage rs a :=
    ⟨fun _ _ _ hab hbc => Nat.le_trans hbc hab⟩
  refine ⟨?_, ?_, ?_⟩
  · rw [top_languages, List.length_take, List.length_insertionSort]
  · exact List.Pairwise.sublist (List.take_sublist n _)
      (List.sorted_insertionSort _ (languagesOf rs))
  · intro l hl
    exact (List.perm_insertionSort
      (fun a b => countryCoverage rs b ≤ countryCoverage rs a)
      (languagesOf rs)).mem_iff.mp (List.mem_of_mem_take hl)

/-- C3 witness: on the §8 example, asking for two languages returns both,
and `English` is among them and among the record set's languages. -/
theorem top_languages_spec_witness :
    (top_languages exRecords 2).length = min 2 (languagesOf exRecords).length
    ∧ (("English" : String) ∈ top_languages exRecords 2)
    ∧ ("English" : String) ∈ languagesOf exRecords :=
  ⟨(top_languages_spec exRecords 2).1, by decide,
   (top_languages_spec exRecords 2).2.2 "English" (by decide)⟩

/-! C4. -/

/-- C4: every trend point (lines 56–57) and every ranked count
(lines 62–63) carries a language from the given top set, because both are
grouped over `filtered_df` (line 51). -/
theorem series_languages_in_top (rs : List LongRecord) (top : List String) :
    (∀ p ∈ trend_series rs top, p.language ∈ top)
    ∧ (∀ q ∈ ranked_series rs top, q.language ∈ top) := by
  constructor
  · intro p hp
    simp only [trend_series, List.mem_map, List.mem_dedup] at hp
    obtain ⟨k, ⟨rec, hrec, hk⟩, hp⟩ := hp
    rw [← hp, ← hk]
    exact mem_filteredRecords hrec
  · intro q hq
    simp only [ranked_series, List.mem_map, List.mem_dedup,
      List.mem_filterMap] at hq
    obtain ⟨k, ⟨rec, hrec, hk⟩, hq⟩ := hq
    rw [Option.map_eq_some'] at hk
    obtain ⟨rk, _, hkk⟩ := hk
    rw [← hq, ← hkk]
    exact mem_filteredRecords hrec

/-- C4 witness: a concrete trend point of the §8 example, with its
language in the top set. -/
theorem series_languages_in_top_witness :
    ((⟨1202, "English", 2⟩ : TrendPoint) ∈ trend_series exRecords exTop)
    ∧ (⟨1202, "English", 2⟩ : TrendPoint).language ∈ exTop :=
  ⟨by decide,
   (series_languages_in_top exRecords exTop).1 ⟨1202, "English", 2⟩ (by decide)⟩

/-! C8. -/

/-- C8: normalization alters no field beyond stripping surrounding
whitespace from the country label (line 21): every record's `country` is
the stripped source label and its `language` is a verbatim source cell;
consequently, on a table whose country labels are already stripped, every
record's `country` and `language` equal the source fields unchanged. -/
theorem normalize_strip_spec (t : RawTable) :
    (∀ r ∈ normalize t, ∃ row ∈ t.rows,
        r.country = strip row.country
        ∧ ∃ i, row.cells.getD i none = some r.language)
    ∧ ((∀ row ∈ t.rows, strip row.country = row.country) →
        ∀ r ∈ normalize t, ∃ row ∈ t.rows,
          r.country = row.country
          ∧ ∃ i, row.cells.getD i none = some r.language) := by
  have main : ∀ r ∈ normalize t, ∃ row ∈ t.rows,
      r.country = strip row.country
      ∧ ∃ i, row.cells.getD i none = some r.language := by
    intro r hr
    obtain ⟨m, hm, hc, _, hl, _, _⟩ := of_mem_normalize hr
    obtain ⟨row, hrow, i, _, hcell, hcountry, _⟩ := of_mem_melt hm
    exact ⟨row, hrow, by rw [hc]; exact hcountry, i, by rw [hl]; exact hcell⟩
  refine ⟨main, fun hclean r hr => ?_⟩
  obtain ⟨row, hrow, hc, hcell⟩ := main r hr
  exact ⟨row, hrow, by rw [hc, hclean row hrow], hcell⟩

/-- C8 witness: on the §8 example, whose labels are already stripped, a
record's fields equal the source fields verbatim. -/
theorem normalize_strip_spec_witness :
    (∀ row ∈ exTable.rows, strip row.country = row.country)
    ∧ ((⟨"France", "pop12021", "English", some "pop1", 1202⟩ : LongRecord) ∈ normalize exTable)
    ∧ ∃ row ∈ exTable.rows,
        ("France" : String) = row.country
        ∧ ∃ i, row.cells.getD i none = some "English" :=
  ⟨by decide, by decide,
   (normalize_strip_spec exTable).2 (by decide)
     ⟨"France", "pop12021", "English", some "pop1", 1202⟩ (by decide)⟩

/-! C6. -/

/-- C6: the header remapping (lines 69–79) sends `pop1<year>` to
`Most Popular <year>` and `pop2<year>` to `Second Most Popular <year>`
(the year being the last four characters of the header), leaves every
non-popularity header unchanged, and the bar-chart rank labels (line 178)
use the same mapping. -/
theorem pretty_col_spec (y : String) (hlen : y.data.length = 4)
    (_hdig : ∀ c ∈ y.data, c.isDigit) :
    pretty_col ("pop1" ++ y) = "Most Popular " ++ y
    ∧ pretty_col ("pop2" ++ y) = "Second Most Popular " ++ y
    ∧ (∀ col : String, strStarts col "pop1" = false →
        strStarts col "pop2" = false → pretty_col col = col)
    ∧ rank_map "pop1" = some "Most Popular"
    ∧ rank_map "pop2" = some "Second Most Popular" := by
  have hd1 : ("pop1" ++ y).data = 'p' :: 'o' :: 'p' :: '1' :: y.data := by
    rw [String.data_append]; rfl
  have hd2 : ("pop2" ++ y).data = 'p' :: 'o' :: 'p' :: '2' :: y.data := by
    rw [String.data_append]; rfl
  have hrepr1 : ("pop1" ++ y) = ⟨'p' :: 'o' :: 'p' :: '1' :: y.data⟩ :=
    congrArg String.mk hd1
  have hrepr2 : ("pop2" ++ y) = ⟨'p' :: 'o' :: 'p' :: '2' :: y.data⟩ :=
    congrArg String.mk hd2
  have hlast : ∀ c : Char, lastN ⟨'p' :: 'o' :: 'p' :: c :: y.data⟩ 4 = y := by
    intro c
    unfold lastN
    have h2 : (⟨'p' :: 'o' :: 'p' :: c :: y.data⟩ : String).data.length - 4 = 4 := by
      simp only [List.length_cons, hlen]
    rw [h2]
    rfl
  have hs1 : strStarts ("pop1" ++ y) "pop1" = true := by
    simp only [strStarts, hd1]
    rfl
  have hs2a : strStarts ("pop2" ++ y) "pop1" = false := by
    simp only [strStarts, hd2]
    rfl
  have hs2b : strStarts ("pop2" ++ y) "pop2" = true := by
    simp only [strStarts, hd2]
    rfl
  refine ⟨?_, ?_, ?_, rfl, rfl⟩
  · rw [pretty_col, if_pos hs1, hrepr1, hlast '1']
  · rw [pretty_col, if_neg, if_pos hs2b, hrepr2, hlast '2']
    rw [hs2a]
    exact Bool.false_ne_true
  · intro col h1 h2
    rw [pretty_col, if_neg, if_neg]
    · rw [h2]; exact Bool.false_ne_true
    · rw [h1]; exact Bool.false_ne_true

/-- C6 witness: the mapping evaluated at the year 2021. -/
theorem pretty_col_spec_witness :
    (("2021" : String).data.length = 4
      ∧ ∀ c ∈ ("2021" : String).data, c.isDigit)
    ∧ pretty_col ("pop1" ++ "2021") = "Most Popular " ++ "2021"
    ∧ pretty_col ("pop2" ++ "2021") = "Second Most Popular " ++ "2021" :=
  ⟨⟨by decide, by decide⟩,
   (pretty_col_spec "2021" (by decide) (by decide)).1,
   (pretty_col_spec "2021" (by decide) (by decide)).2.1⟩

/-! C7. -/

/-- C7: the year slider (lines 109–117) is integer-stepped with domain the
closed interval from the least to the greatest year of the aggregate
`bar_data`. -/
theorem year_slider_spec (bars : List RankedCount) (h : bars ≠ []) :
    (year_slider bars).step = 1
    ∧ ((year_slider bars).min ∈ bars.map fun b => b.year)
    ∧ (∀ y ∈ bars.map fun b => b.year, (year_slider bars).min ≤ y)
    ∧ ((year_slider bars).max ∈ bars.map fun b => b.year)
    ∧ (∀ y ∈ bars.map fun b => b.year, y ≤ (year_slider bars).max) := by
  have hne : (bars.map fun b => b.year) ≠ [] := by
    intro hmap
    exact h (List.map_eq_nil_iff.mp hmap)
  obtain ⟨m, hm⟩ : ∃ m, (bars.map fun b => b.year).min? = some m := by
    cases hmin : (bars.map fun b => b.year).min? with
    | none => exact absurd (List.min?_eq_none_iff.mp hmin) hne
    | some m => exact ⟨m, rfl⟩
  obtain ⟨M, hM⟩ : ∃ M, (bars.map fun b => b.year).max? = some M := by
    cases hmax : (bars.map fun b => b.year).max? with
    | none => exact absurd (List.max?_eq_none_iff.mp hmax) hne
    | some M => exact ⟨M, rfl⟩
  have hmins := (List.min?_eq_some_iff (fun a => Nat.le_refl a)
    (fun a b => by omega) (fun a b c => by omega)).mp hm
  have hmaxs := (List.max?_eq_some_iff (fun a => Nat.le_refl a)
    (fun a b => by omega) (fun a b c => by omega)).mp hM
  refine ⟨rfl, ?_, ?_, ?_, ?_⟩ <;>
    simp only [year_slider, hm, hM, Option.getD_some]
  · exact hmins.1
  · exact fun y hy => hmins.2 y hy
  · exact hmaxs.1
  · exact fun y hy => hmaxs.2 y hy

/-- C7 witness: the slider of the §8 example's aggregate data. -/
theorem year_slider_spec_witness :
    exBars ≠ []
    ∧ (year_slider exBars).step = 1
    ∧ ((year_slider exBars).min ∈ exBars.map fun b => b.year) :=
  ⟨by decide, (year_slider_spec exBars (by decide)).1,
   (year_slider_spec exBars (by decide)).2.1⟩

/-! C9. -/

/-- One UI interaction leaves the module state unchanged: each callback
only builds fresh values (line 177 copies the slice before line 179
assigns to it; lines 215–220 assign nothing). -/
theorem step_preserves_state (s : DashState) (e : Event) : step s e = s := by
  cases e <;> rfl

/-- C9: any sequence of slider and table interactions leaves every derived
table unchanged, and a callback's result after any interaction history is
the result on the pristine state — the callbacks are pure, deterministic
queries. -/
theorem callbacks_pure (s : DashState) (es : List Event) :
    es.foldl step s = s
    ∧ (∀ y, (update_bar_cb (es.foldl step s) y).2 = (update_bar_cb s y).2)
    ∧ (∀ sel, (update_table_cb (es.foldl step s) sel).2 = (update_table_cb s sel).2)
    ∧ (es.foldl step s).long_df = s.long_df
    ∧ (es.foldl step s).top_langs = s.top_langs
    ∧ (es.foldl step s).line_data = s.line_data
    ∧ (es.foldl step s).bar_data = s.bar_data
    ∧ (es.foldl step s).table_df = s.table_df := by
  have hfold : es.foldl step s = s := by
    induction es generalizing s with
    | nil => rfl
    | cons e es ih =>
      rw [List.foldl_cons, step_preserves_state]
      exact ih s
  rw [hfold]
  exact ⟨rfl, fun _ => rfl, fun _ => rfl, rfl, rfl, rfl, rfl, rfl⟩

end Duolingo
